import Mathlib

/-!
Verification of the MAF dot-plot builder `dotplot_assembly` from
`bin/workflow_glue/report_utils/report_utils.py`.

The Python function streams a MAF-like alignment text file line by line,
collects one raw record per alignment block, types the records as a
dataframe, and turns the rows into two lists of bokeh `Segment` glyph rows
(forward-query segments drawn in black, reverse-query segments drawn in
red).  The embedding below models the file as the list of strings returned
by successive `readline()` calls (each line keeps its trailing newline;
exhaustion of the list corresponds to `readline()` returning `""`), and
models the Python failure modes as an explicit error type.
-/

namespace WfCloneValidation

/-- The Python exceptions `dotplot_assembly` can raise, named after the
Python exception classes: `IndexError` (from `line.split('letters=')[1]`),
`ValueError` (from `int(...)` and from the dataframe construction /
`astype` coercion), `NameError` (from reading the never-assigned local
`read_length`), and `IOError` with its message (the explicit
`raise IOError("Cannot read alignment file")`). -/
inductive PyErr where
  | indexError : PyErr
  | valueError : PyErr
  | nameError : PyErr
  | ioError : String → PyErr
deriving DecidableEq

deriving instance DecidableEq for Except

/-- Python `s.startswith(pat)`. -/
def pyStartsWith (s pat : String) : Bool :=
  pat.data.isPrefixOf s.data

/-- Python `pat in s` (substring containment). -/
def pyContains (s pat : String) : Bool :=
  s.data.tails.any (fun t => pat.data.isPrefixOf t)

/-- Python `s.split()` with no separator: split on runs of whitespace,
discarding empty pieces. -/
def pySplitWs (s : String) : List String :=
  ((s.data.foldr
      (fun c acc =>
        if c.isWhitespace then [] :: acc
        else
          match acc with
          | [] => [[c]]
          | w :: ws => (c :: w) :: ws)
      ([] : List (List Char))).filter (fun w => w ≠ [])).map (fun w => String.mk w)

/-- Fuel-driven worker for splitting a character list at each
(non-overlapping, left-to-right) occurrence of a nonempty separator.
With `fuel ≥ cs.length` the fuel never runs out. -/
def splitOnCore (sep : List Char) : Nat → List Char → List Char → List (List Char)
  | _, [], acc => [acc.reverse]
  | 0, cs, acc => [acc.reverse ++ cs]
  | fuel + 1, c :: rest, acc =>
    if sep.isPrefixOf (c :: rest) then
      acc.reverse :: splitOnCore sep fuel ((c :: rest).drop sep.length) []
    else
      splitOnCore sep fuel rest (c :: acc)

/-- Python `s.split(sep)` for a nonempty separator (the only way the
source calls it, with `sep = "letters="`). -/
def pySplitOn (s sep : String) : List String :=
  if sep.data = [] then [s]
  else (splitOnCore sep.data s.data.length s.data []).map (fun w => String.mk w)

/-- Value of a nonempty run of ASCII digits; `none` otherwise. -/
def digitsVal : List Char → Option Nat
  | [] => none
  | cs =>
    if cs.all Char.isDigit then
      some (cs.foldl (fun a c => a * 10 + (c.toNat - 48)) 0)
    else none

/-- Python `int(s)`: strip surrounding whitespace, allow an optional
sign, then require a nonempty digit run; anything else is a
`ValueError` (`none`). -/
def pyInt (s : String) : Option Int :=
  let t := ((s.data.dropWhile Char.isWhitespace).reverse.dropWhile
      Char.isWhitespace).reverse
  match t with
  | '-' :: ds => (digitsVal ds).map (fun n => -(n : Int))
  | '+' :: ds => (digitsVal ds).map (fun n => (n : Int))
  | ds => (digitsVal ds).map (fun n => (n : Int))

/-- The raw record appended for one alignment block:
`r1 + r2` where `r1 = line1.split()[1:5]` and `r2 = line2.split()[1:5]`
(the whitespace-separated tokens at 0-based indices 1,2,3,4 of the two
`s` sequence lines). -/
def pyrecord (l1 l2 : String) : List String :=
  ((pySplitWs l1).drop 1).take 4 ++ ((pySplitWs l2).drop 1).take 4

/-- The `while True` reader loop of `dotplot_assembly` (source lines
176–195).  Arguments: remaining lines, the current value of the local
`read_length` (`none` while unassigned), and the records accumulated so
far.  Branches, in source order:

* a line starting `'#'` containing `'letters'` sets
  `read_length = int(line.split('letters=')[1])`
  (`IndexError` when `'letters='` does not occur, `ValueError` when the
  text after it is not an integer); other `'#'` lines are skipped;
* a line starting `'a'` reads the next three lines (at end of file a
  `readline()` yields `""`), appends `r1 + r2` built from the first two,
  and discards the third;
* the line `""` (end of file) breaks out of the loop;
* any other line raises `IOError("Cannot read alignment file")`. -/
def parseLoop : List String → Option Int → List (List String) →
    Except PyErr (Option Int × List (List String))
  | [], readLength, records => .ok (readLength, records)
  | line :: rest, readLength, records =>
    if pyStartsWith line "#" then
      if pyContains line "letters" then
        match (pySplitOn line "letters=").get? 1 with
        | none => .error .indexError
        | some t =>
          match pyInt t with
          | none => .error .valueError
          | some n => parseLoop rest (some n) records
      else parseLoop rest readLength records
    else if pyStartsWith line "a" then
      match rest with
      | [] => .ok (readLength, records ++ [pyrecord "" ""])
      | [l1] => .ok (readLength, records ++ [pyrecord l1 ""])
      | [l1, l2] => .ok (readLength, records ++ [pyrecord l1 l2])
      | l1 :: l2 :: _ :: rest3 =>
        parseLoop rest3 readLength (records ++ [pyrecord l1 l2])
    else if line = "" then .ok (readLength, records)
    else .error (.ioError "Cannot read alignment file")

/-- One row of the typed dataframe after
`pd.DataFrame(records, columns=names)` and
`astype({'qstart': int, 'qlen': int, 'rstart': int, 'rlen': int})`.
Cells that stay strings are `Option String`, where `none` is the `NaN`
pandas puts into positions a short record row does not fill. -/
structure MafRow where
  ref : Option String
  rstart : Int
  rlen : Int
  rorient : Option String
  query : Option String
  qstart : Int
  qlen : Int
  qorient : Option String
deriving DecidableEq

/-- The `NaN` padding pandas applies to a record row shorter than the
widest row (here the target width is the 8 column names). -/
def padRow (row : List String) : List (Option String) :=
  row.map some ++ List.replicate (8 - row.length) none

/-- `astype(int)` of one cell: `NaN` or non-integer text raises
`ValueError`. -/
def cellInt (c : Option String) : Except PyErr Int :=
  match c with
  | none => .error .valueError
  | some s =>
    match pyInt s with
    | none => .error .valueError
    | some n => .ok n

/-- One record row to a typed `MafRow`: column positions 0–7 are
`ref, rstart, rlen, rorient, query, qstart, qlen, qorient`, with the
four coordinate columns coerced to integers. -/
def rowToMaf (row : List String) : Except PyErr MafRow :=
  let p := padRow row
  match cellInt (p.getD 1 none) with
  | .error e => .error e
  | .ok rs =>
    match cellInt (p.getD 2 none) with
    | .error e => .error e
    | .ok rl =>
      match cellInt (p.getD 5 none) with
      | .error e => .error e
      | .ok qs =>
        match cellInt (p.getD 6 none) with
        | .error e => .error e
        | .ok ql =>
          .ok { ref := p.getD 0 none, rstart := rs, rlen := rl, rorient := p.getD 3 none,
                query := p.getD 4 none, qstart := qs, qlen := ql, qorient := p.getD 7 none }

/-- `pd.DataFrame(records, columns=names)` followed by the `astype`
coercion (source lines 201–202): an empty record list yields an empty
frame; otherwise the widest record row must match the 8 column names
(else pandas raises `ValueError: 8 columns passed, passed data had N
columns`); shorter rows are padded with `NaN`, and the coordinate
columns are coerced to integers. -/
def buildFrame (records : List (List String)) : Except PyErr (List MafRow) :=
  if records = [] then .ok []
  else if records.foldl (fun m row => max m row.length) 0 ≠ 8 then .error .valueError
  else records.mapM rowToMaf

/-- One bokeh `Segment` glyph row: endpoints `(x0, y0)` and `(x1, y1)`
plus the `line_color` of the glyph it is rendered with (`"black"` for
the forward-query pass, `"red"` for the reverse-query pass — the
spec's Forward/Reverse tags).  `x1` is optional because in the
forward-query pass a row whose `rorient` is neither `"+"` nor `"-"`
never has its `rend` column assigned, leaving `NaN`. -/
structure Seg where
  x0 : Int
  y0 : Int
  x1 : Option Int
  y1 : Int
  line_color : String
deriving DecidableEq

/-- The forward-query transform (source lines 204–213) applied to one
row with `qorient == '+'`:
`qend = qstart + qlen`;
rows with `rorient == '+'` get `rend = rstart + rlen`;
rows with `rorient == '-'` get `rend = rstart` (the original start) and
then `rstart = rstart - rlen`; the segment is
`(rstart, qstart) → (rend, qend)` drawn in black. -/
def segOfFwdRow (r : MafRow) : Seg :=
  let qend := r.qstart + r.qlen
  let rend : Option Int :=
    if r.rorient = some "+" then some (r.rstart + r.rlen)
    else if r.rorient = some "-" then some r.rstart
    else none
  let rstart := if r.rorient = some "-" then r.rstart - r.rlen else r.rstart
  { x0 := rstart, y0 := r.qstart, x1 := rend, y1 := qend, line_color := "black" }

/-- The rows with `qorient == '+'` turned into black segments, in row
order (`df = df_all[df_all.qorient.isin(['+'])]` and the following
assignments). -/
def forwardSegs (rows : List MafRow) : List Seg :=
  (rows.filter (fun r => r.qorient = some "+")).map segOfFwdRow

/-- The reverse-query transform (source lines 216–225) applied to one
row with `qorient == '-'`, given the file-level `read_length`:
`qstart = read_length - qstart`; `qend = qstart - qlen` (from the new
`qstart`); `rend = rstart + rlen` unconditionally; the segment is
`(rstart, qstart) → (rend, qend)` drawn in red. -/
def segOfRevRow (readLength : Int) (r : MafRow) : Seg :=
  let qstart := readLength - r.qstart
  { x0 := r.rstart, y0 := qstart, x1 := some (r.rstart + r.rlen),
    y1 := qstart - r.qlen, line_color := "red" }

/-- The rows with `qorient == '-'` turned into red segments, in row
order. -/
def reverseSegs (readLength : Int) (rows : List MafRow) : List Seg :=
  (rows.filter (fun r => r.qorient = some "-")).map (segOfRevRow readLength)

/-- `dotplot_assembly` end to end: run the reader loop, build the typed
frame, compute the forward-query segments, then run the reverse-query
pass — whose first statement `df['qstart'] = read_length - df['qstart']`
reads the local `read_length` unconditionally, so a file that never set
it raises `NameError` here even when there are no reverse rows (and even
when there are no rows at all).  On success the two segment lists are
returned in the order the glyphs are added to the plot: all black
(forward-query) segments, then all red (reverse-query) ones. -/
def dotplot_assembly (lines : List String) : Except PyErr (List Seg × List Seg) :=
  match parseLoop lines none [] with
  | .error e => .error e
  | .ok (readLength, records) =>
    match buildFrame records with
    | .error e => .error e
    | .ok rows =>
      let fwd := forwardSegs rows
      match readLength with
      | none => .error .nameError
      | some l => .ok (fwd, reverseSegs l rows)

/-- One step of the reader loop: a `'#'` line without the substring
`letters` is skipped. -/
lemma parseLoop_step_skip (line : String) (rest : List String) (rl : Option Int)
    (recs : List (List String)) (h1 : pyStartsWith line "#" = true)
    (h2 : pyContains line "letters" = false) :
    parseLoop (line :: rest) rl recs = parseLoop rest rl recs := by
  rcases rest with _ | ⟨l1, _ | ⟨l2, _ | ⟨sep, rest3⟩⟩⟩ <;> simp [parseLoop, h1, h2]

/-- One step of the reader loop: a `'#'` line with `letters` whose part
after `letters=` parses as an integer sets `read_length` to it. -/
lemma parseLoop_step_letters (line : String) (rest : List String) (rl : Option Int)
    (recs : List (List String)) (t : String) (n : Int)
    (h1 : pyStartsWith line "#" = true) (h2 : pyContains line "letters" = true)
    (h3 : (pySplitOn line "letters=")[1]? = some t) (h4 : pyInt t = some n) :
    parseLoop (line :: rest) rl recs = parseLoop rest (some n) recs := by
  rcases rest with _ | ⟨l1, _ | ⟨l2, _ | ⟨sep, rest3⟩⟩⟩ <;> simp [parseLoop, h1, h2, h3, h4]

/-- One step of the reader loop: a `'#'` line with `letters` but no
`letters=` raises `IndexError`. -/
lemma parseLoop_step_indexError (line : String) (rest : List String) (rl : Option Int)
    (recs : List (List String)) (h1 : pyStartsWith line "#" = true)
    (h2 : pyContains line "letters" = true)
    (h3 : (pySplitOn line "letters=")[1]? = none) :
    parseLoop (line :: rest) rl recs = .error .indexError := by
  rcases rest with _ | ⟨l1, _ | ⟨l2, _ | ⟨sep, rest3⟩⟩⟩ <;> simp [parseLoop, h1, h2, h3]

/-- One step of the reader loop: a `'#'` line with `letters=` followed
by non-integer text raises `ValueError`. -/
lemma parseLoop_step_valueError (line : String) (rest : List String) (rl : Option Int)
    (recs : List (List String)) (t : String)
    (h1 : pyStartsWith line "#" = true) (h2 : pyContains line "letters" = true)
    (h3 : (pySplitOn line "letters=")[1]? = some t) (h4 : pyInt t = none) :
    parseLoop (line :: rest) rl recs = .error .valueError := by
  rcases rest with _ | ⟨l1, _ | ⟨l2, _ | ⟨sep, rest3⟩⟩⟩ <;> simp [parseLoop, h1, h2, h3, h4]

/-- One step of the reader loop: an `'a'` line followed by at least
three lines appends the record built from the first two and drops the
third. -/
lemma parseLoop_step_ablock (line l1 l2 sep : String) (rest : List String)
    (rl : Option Int) (recs : List (List String))
    (h1 : pyStartsWith line "#" = false) (h2 : pyStartsWith line "a" = true) :
    parseLoop (line :: l1 :: l2 :: sep :: rest) rl recs =
      parseLoop rest rl (recs ++ [pyrecord l1 l2]) := by
  simp [parseLoop, h1, h2]

/-- One step of the reader loop: a line that starts with neither `'#'`
nor `'a'` either terminates the loop (empty end-of-file marker) or
raises the `IOError`. -/
lemma parseLoop_step_other (line : String) (rest : List String) (rl : Option Int)
    (recs : List (List String)) (h1 : pyStartsWith line "#" = false)
    (h2 : pyStartsWith line "a" = false) :
    parseLoop (line :: rest) rl recs =
      if line = "" then .ok (rl, recs)
      else .error (.ioError "Cannot read alignment file") := by
  rcases rest with _ | ⟨l1, _ | ⟨l2, _ | ⟨sep, rest3⟩⟩⟩ <;> simp [parseLoop, h1, h2]

/-- If the separator occurs nowhere in `cs` (no tail of `cs` has it as
a prefix), `splitOnCore` returns the single piece `acc.reverse ++ cs`. -/
lemma splitOnCore_no_match (sep : List Char) (fuel : Nat) :
    ∀ (cs acc : List Char),
      (∀ t ∈ cs.tails, sep.isPrefixOf t = false) →
      splitOnCore sep fuel cs acc = [acc.reverse ++ cs] := by
  induction fuel with
  | zero =>
    intro cs acc _
    cases cs with
    | nil => simp [splitOnCore]
    | cons c rest => simp [splitOnCore]
  | succ n ih =>
    intro cs acc h
    cases cs with
    | nil => simp [splitOnCore]
    | cons c rest =>
      have hpref : sep.isPrefixOf (c :: rest) = false :=
        h _ ((List.mem_tails _ _).mpr (List.suffix_refl _))
      rw [splitOnCore, if_neg (by simp [hpref])]
      rw [ih rest (c :: acc)
        (fun t ht =>
          h t ((List.mem_tails _ _).mpr
            (((List.mem_tails _ _).mp ht).trans (List.suffix_cons _ _))))]
      simp

/-- A string not containing the separator as a substring splits into a
single piece, so the Python subscript `[1]` is out of range. -/
lemma pySplitOn_get1_eq_none {s pat : String} (hpat : ¬ pat.data = [])
    (h : pyContains s pat = false) : (pySplitOn s pat).get? 1 = none := by
  have hall : ∀ t ∈ s.data.tails, pat.data.isPrefixOf t = false := by
    unfold pyContains at h
    intro t ht
    have hx := List.any_eq_false.mp h t ht
    exact Bool.eq_false_iff.mpr hx
  unfold pySplitOn
  rw [if_neg hpat, splitOnCore_no_match pat.data s.data.length s.data [] hall]
  simp

/-- If no line of the input contains the substring `letters=` and the
reader loop succeeds, the `read_length` it returns is the one it
started with: the loop never assigns it. -/
lemma parseLoop_readLength_of_no_letters :
    ∀ (lines : List String) (readLength : Option Int) (records : List (List String)),
      (∀ l ∈ lines, pyContains l "letters=" = false) →
      ∀ rlOut recsOut, parseLoop lines readLength records = .ok (rlOut, recsOut) →
        rlOut = readLength := by
  intro lines readLength records
  induction lines, readLength, records using parseLoop.induct with
  | case1 rl recs =>
    intro _ rlOut recsOut heq
    simp [parseLoop] at heq
    exact heq.1.symm
  | case2 line rest rl recs h1 h2 h3 =>
    intro h rlOut recsOut heq
    rw [List.get?_eq_getElem?] at h3
    rw [parseLoop_step_indexError line rest rl recs h1 h2 h3] at heq
    exact absurd heq (by simp)
  | case3 line rest rl recs h1 h2 t h3 h4 =>
    intro h rlOut recsOut heq
    rw [List.get?_eq_getElem?] at h3
    rw [parseLoop_step_valueError line rest rl recs t h1 h2 h3 h4] at heq
    exact absurd heq (by simp)
  | case4 line rest rl recs h1 h2 t h3 n h4 ih =>
    intro h _ _ _
    have hline : pyContains line "letters=" = false := h line (List.mem_cons_self _ _)
    have hnone : (pySplitOn line "letters=").get? 1 = none :=
      pySplitOn_get1_eq_none (by decide) hline
    rw [hnone] at h3
    exact absurd h3 (by simp)
  | case5 line rest rl recs h1 h2 ih =>
    intro h rlOut recsOut heq
    rw [parseLoop_step_skip line rest rl recs h1 (by simpa using h2)] at heq
    exact ih (fun l hl => h l (List.mem_cons_of_mem _ hl)) rlOut recsOut heq
  | case6 line rl recs h1 h2 =>
    intro _ rlOut recsOut heq
    simp [parseLoop, h1, h2] at heq
    exact heq.1.symm
  | case7 line rl recs h1 h2 l1 =>
    intro _ rlOut recsOut heq
    simp [parseLoop, h1, h2] at heq
    exact heq.1.symm
  | case8 line rl recs h1 h2 l1 l2 =>
    intro _ rlOut recsOut heq
    simp [parseLoop, h1, h2] at heq
    exact heq.1.symm
  | case9 line rl recs h1 h2 l1 l2 sep rest3 ih =>
    intro h rlOut recsOut heq
    rw [parseLoop_step_ablock line l1 l2 sep rest3 rl recs (by simpa using h1) h2] at heq
    exact ih
      (fun l hl =>
        h l (List.mem_cons_of_mem _ (List.mem_cons_of_mem _
          (List.mem_cons_of_mem _ (List.mem_cons_of_mem _ hl)))))
      rlOut recsOut heq
  | case10 rest rl recs h1 h2 =>
    intro _ rlOut recsOut heq
    rw [parseLoop_step_other "" rest rl recs (by simpa using h1) (by simpa using h2)] at heq
    simp at heq
    exact heq.1.symm
  | case11 line rest rl recs h1 h2 h3 =>
    intro _ rlOut recsOut heq
    rw [parseLoop_step_other line rest rl recs (by simpa using h1) (by simpa using h2)] at heq
    rw [if_neg h3] at heq
    exact absurd heq (by simp)

/-- Every segment the forward-query pass emits for a row of the frame
with `qorient == '+'` is in the black segment list. -/
lemma mem_forwardSegs {rows : List MafRow} {r : MafRow}
    (hmem : r ∈ rows) (hq : r.qorient = some "+") :
    segOfFwdRow r ∈ forwardSegs rows := by
  unfold forwardSegs
  exact List.mem_map.mpr ⟨r, List.mem_filter.mpr ⟨hmem, by simp [hq]⟩, rfl⟩

/-- Every segment the reverse-query pass emits for a row of the frame
with `qorient == '-'` is in the red segment list. -/
lemma mem_reverseSegs (readLength : Int) {rows : List MafRow} {r : MafRow}
    (hmem : r ∈ rows) (hq : r.qorient = some "-") :
    segOfRevRow readLength r ∈ reverseSegs readLength rows := by
  unfold reverseSegs
  exact List.mem_map.mpr ⟨r, List.mem_filter.mpr ⟨hmem, by simp [hq]⟩, rfl⟩

/-- C1: for the concrete file with comment `# letters=1000`, one
forward/forward block (`ref_start=10, ref_len=5`, `query_start=20,
query_len=5`) and one reverse-query block (`ref_start=30, ref_len=4`,
`query_start=50, query_len=4`), the build emits exactly one black
(Forward-tagged) segment `(10,20)→(15,25)` and exactly one red
(Reverse-tagged) segment `(30,950)→(34,946)`. -/
theorem c1_example_file :
    dotplot_assembly
      ["# letters=1000\n", "a score=0\n",
       "s ref 10 5 + 2000 ACGTA\n", "s query 20 5 + 1000 ACGTA\n", "\n",
       "a score=0\n",
       "s ref 30 4 + 2000 ACGT\n", "s query 50 4 - 1000 ACGT\n", "\n"]
      = .ok ([{ x0 := 10, y0 := 20, x1 := some 15, y1 := 25, line_color := "black" }],
             [{ x0 := 30, y0 := 950, x1 := some 34, y1 := 946, line_color := "red" }]) := by
  decide

/-- C2: for every frame row with query orientation Forward (`'+'`) and
reference orientation Reverse (`'-'`), the emitted segment is in the
forward list, its reference end `x1` equals the original parsed
reference start, and its reference start `x0` equals the original
parsed reference start minus the reference length (the end is taken
from the original start before the start is overwritten). -/
theorem c2_forward_query_reverse_reference (rows : List MafRow) (r : MafRow)
    (hmem : r ∈ rows) (hq : r.qorient = some "+") (hr : r.rorient = some "-") :
    segOfFwdRow r ∈ forwardSegs rows ∧
    (segOfFwdRow r).x1 = some r.rstart ∧
    (segOfFwdRow r).x0 = r.rstart - r.rlen := by
  refine ⟨mem_forwardSegs hmem hq, ?_, ?_⟩ <;> simp [segOfFwdRow, hr]

/-- Witness for C2 at the concrete row
`rstart=30, rlen=4, rorient='-', qstart=50, qlen=4, qorient='+'`. -/
theorem c2_forward_query_reverse_reference_witness :
    segOfFwdRow ⟨some "ref", 30, 4, some "-", some "q", 50, 4, some "+"⟩ ∈
      forwardSegs [⟨some "ref", 30, 4, some "-", some "q", 50, 4, some "+"⟩] ∧
    (segOfFwdRow ⟨some "ref", 30, 4, some "-", some "q", 50, 4, some "+"⟩).x1 = some 30 ∧
    (segOfFwdRow ⟨some "ref", 30, 4, some "-", some "q", 50, 4, some "+"⟩).x0 = 30 - 4 :=
  c2_forward_query_reverse_reference _ _ (by decide) (by decide) (by decide)

/-- C3: for every file whose reader loop succeeds with
`read_length = L` (taken from the `letters=` comment) and whose frame
builds, each frame row with query orientation Reverse (`'-'`) yields a
red segment whose query start `y0` is `L` minus the original parsed
query start, and whose query end `y1` is that mirrored start minus the
query length. -/
theorem c3_reverse_query_mirror (lines : List String) (l : Int)
    (records : List (List String)) (rows : List MafRow) (r : MafRow)
    (hparse : parseLoop lines none [] = .ok (some l, records))
    (hframe : buildFrame records = .ok rows)
    (hmem : r ∈ rows) (hq : r.qorient = some "-") :
    dotplot_assembly lines = .ok (forwardSegs rows, reverseSegs l rows) ∧
    segOfRevRow l r ∈ reverseSegs l rows ∧
    (segOfRevRow l r).y0 = l - r.qstart ∧
    (segOfRevRow l r).y1 = (l - r.qstart) - r.qlen := by
  refine ⟨?_, mem_reverseSegs l hmem hq, rfl, rfl⟩
  simp [dotplot_assembly, hparse, hframe]

/-- Witness for C3 on a concrete file with `# letters=1000` and one
reverse-query block `ref_start=30, ref_len=4, query_start=50,
query_len=4`. -/
theorem c3_reverse_query_mirror_witness :
    dotplot_assembly
        ["# letters=1000\n", "a\n",
         "s ref 30 4 + 2000 ACGT\n", "s q 50 4 - 1000 ACGT\n", "\n"]
      = .ok (forwardSegs [⟨some "ref", 30, 4, some "+", some "q", 50, 4, some "-"⟩],
             reverseSegs 1000 [⟨some "ref", 30, 4, some "+", some "q", 50, 4, some "-"⟩]) ∧
    segOfRevRow 1000 ⟨some "ref", 30, 4, some "+", some "q", 50, 4, some "-"⟩ ∈
      reverseSegs 1000 [⟨some "ref", 30, 4, some "+", some "q", 50, 4, some "-"⟩] ∧
    (segOfRevRow 1000 ⟨some "ref", 30, 4, some "+", some "q", 50, 4, some "-"⟩).y0
      = 1000 - 50 ∧
    (segOfRevRow 1000 ⟨some "ref", 30, 4, some "+", some "q", 50, 4, some "-"⟩).y1
      = (1000 - 50) - 4 :=
  c3_reverse_query_mirror _ _ [["ref", "30", "4", "+", "q", "50", "4", "-"]] _ _
    (by decide) (by decide) (by decide) (by decide)

/-- C4: for every frame row with query orientation Reverse (`'-'`),
the emitted red segment's reference end `x1` equals
`rstart + rlen`, with no hypothesis on the row's own reference
orientation — the reverse-query branch applies no reverse-reference
correction. -/
theorem c4_reverse_query_reference_end (readLength : Int)
    (rows : List MafRow) (r : MafRow)
    (hmem : r ∈ rows) (hq : r.qorient = some "-") :
    segOfRevRow readLength r ∈ reverseSegs readLength rows ∧
    (segOfRevRow readLength r).x1 = some (r.rstart + r.rlen) :=
  ⟨mem_reverseSegs readLength hmem hq, rfl⟩

/-- Witness for C4 at a concrete row whose reference orientation is
itself Reverse (`rorient='-'`): the reference end is still
`rstart + rlen = 30 + 4`. -/
theorem c4_reverse_query_reference_end_witness :
    segOfRevRow 1000 ⟨some "ref", 30, 4, some "-", some "q", 50, 4, some "-"⟩ ∈
      reverseSegs 1000 [⟨some "ref", 30, 4, some "-", some "q", 50, 4, some "-"⟩] ∧
    (segOfRevRow 1000 ⟨some "ref", 30, 4, some "-", some "q", 50, 4, some "-"⟩).x1
      = some (30 + 4) :=
  c4_reverse_query_reference_end 1000 _ _ (by decide) (by decide)

/-- C10: the fourth line of an alignment block (the separator read
after the `a` line and the two sequence lines) is consumed and
discarded: the loop's continuation does not mention it at all, so
whatever it contains, no error is raised for it and it is never
inspected. -/
theorem c10_separator_discarded (line l1 l2 sep : String) (rest : List String)
    (readLength : Option Int) (records : List (List String))
    (hsharp : pyStartsWith line "#" = false)
    (ha : pyStartsWith line "a" = true) :
    parseLoop (line :: l1 :: l2 :: sep :: rest) readLength records =
      parseLoop rest readLength (records ++ [pyrecord l1 l2]) := by
  simp [parseLoop, hsharp, ha]

/-- Witness for C10: a block whose separator slot holds a garbage line
(`"## NOT AN s LINE"`) parses exactly as the continuation that never
looks at it. -/
theorem c10_separator_discarded_witness :
    parseLoop
        ["a\n", "s ref 10 5 + 2000 ACGTA\n", "s q 20 5 + 1000 ACGTA\n",
         "## NOT AN s LINE\n", "\n"] none [] =
      parseLoop ["\n"] none
        ([] ++ [pyrecord "s ref 10 5 + 2000 ACGTA\n" "s q 20 5 + 1000 ACGTA\n"]) :=
  c10_separator_discarded _ _ _ _ _ _ _ (by decide) (by decide)

/-- C5 counterexample: in the concrete block below the token at
1-indexed position 2 of each sequence line is the sequence NAME
(here the numeral `"111"`), not the segment's start: the emitted
segment starts at 10 (the position-3 token), not at 111, and the 1000
used for nothing here came from the `letters=` comment, not from a
trailing s-line field.  This refutes the claim's identification of the
four extracted tokens as start/length/orientation/total-length. -/
theorem c5_counterexample :
    dotplot_assembly
        ["# letters=1000\n", "a\n",
         "s 111 10 5 + 2000 ACGTA\n", "s 222 20 5 + 1000 ACGTA\n", "\n"]
      = .ok ([{ x0 := 10, y0 := 20, x1 := some 15, y1 := 25, line_color := "black" }], []) ∧
    (pySplitWs "s 111 10 5 + 2000 ACGTA\n").get? 1 = some "111" ∧
    (10 : Int) ≠ 111 := by
  decide

/-- C5 amended: the parser extracts the whitespace-separated tokens at
1-indexed positions 2 through 5 of each sequence line, and these four
tokens are the sequence's NAME, the segment's start, its length, and
its orientation/strand (columns 0–3 and 4–7 of a record row); the
query's total length is not among them — it comes from the `letters=`
comment. -/
theorem c5_amended_field_positions (rn rs rl ro qn qs ql qo : String) (a b c d : Int)
    (h1 : pyInt rs = some a) (h2 : pyInt rl = some b)
    (h3 : pyInt qs = some c) (h4 : pyInt ql = some d) :
    rowToMaf [rn, rs, rl, ro, qn, qs, ql, qo] =
      .ok { ref := some rn, rstart := a, rlen := b, rorient := some ro,
            query := some qn, qstart := c, qlen := d, qorient := some qo } := by
  simp [rowToMaf, padRow, cellInt, h1, h2, h3, h4, List.getD]

/-- Witness for the amended C5 at a concrete record row. -/
theorem c5_amended_field_positions_witness :
    rowToMaf ["refname", "10", "5", "+", "qname", "20", "7", "-"] =
      .ok { ref := some "refname", rstart := 10, rlen := 5, rorient := some "+",
            query := some "qname", qstart := 20, qlen := 7, qorient := some "-" } :=
  c5_amended_field_positions _ _ _ _ _ _ _ _ _ _ _ _
    (by decide) (by decide) (by decide) (by decide)

/-- C6 counterexample: in this file the third line after the `a` line
(the block separator slot) is `"JUNK JUNK JUNK\n"`, not a well-formed
`s` line, yet the build raises no `FormatError` — it succeeds and
returns one segment, not zero. -/
theorem c6_counterexample :
    dotplot_assembly
        ["# letters=1000\n", "a\n",
         "s ref 10 5 + 2000 ACGTA\n", "s query 20 5 + 1000 ACGTA\n",
         "JUNK JUNK JUNK\n"]
      = .ok ([{ x0 := 10, y0 := 20, x1 := some 15, y1 := 25, line_color := "black" }], []) := by
  decide

/-- C6 amended: the third line after an `a` line is the block
separator, which the reader consumes and discards without validation,
so the build's outcome is the same whatever that line contains — no
`FormatError` is raised for it and no segments are lost. -/
theorem c6_amended_separator_not_validated (line l1 l2 sep sep' : String)
    (rest : List String) (readLength : Option Int) (records : List (List String))
    (hsharp : pyStartsWith line "#" = false)
    (ha : pyStartsWith line "a" = true) :
    parseLoop (line :: l1 :: l2 :: sep :: rest) readLength records =
      parseLoop (line :: l1 :: l2 :: sep' :: rest) readLength records := by
  simp [parseLoop, hsharp, ha]

/-- Witness for the amended C6: replacing a well-formed separator by a
garbage line leaves the parse unchanged. -/
theorem c6_amended_separator_not_validated_witness :
    parseLoop
        ["a\n", "s ref 10 5 + 2000 ACGTA\n", "s q 20 5 + 1000 ACGTA\n",
         "JUNK JUNK JUNK\n", "\n"] none [] =
      parseLoop
        ["a\n", "s ref 10 5 + 2000 ACGTA\n", "s q 20 5 + 1000 ACGTA\n",
         "\n", "\n"] none [] :=
  c6_amended_separator_not_validated _ _ _ _ _ _ _ _ (by decide) (by decide)

/-- C8 counterexample: the line `"# 1000 letters in total\n"` begins
with `'#'` and does not contain the token `letters=`, so per the claim
it should be ignored and parsing should continue without error; the
code instead enters the `letters` branch (the guard only checks for
the substring `letters`) and `line.split('letters=')[1]` raises
`IndexError`. -/
theorem c8_counterexample :
    dotplot_assembly ["# 1000 letters in total\n"] = .error .indexError := by
  decide

/-- C8 amended: for a line beginning with `'#'`: if it does not
contain the substring `letters` it is ignored; if it contains
`letters`, the text after the first `letters=` is coerced with `int`
and stored as `read_length`, the new value replacing any earlier one
(last wins) — and when such a line has `letters` but no `letters=`,
the subscript `[1]` raises `IndexError` instead of the line being
ignored. -/
theorem c8_amended_comment_lines (line : String) (rest : List String)
    (readLength : Option Int) (records : List (List String))
    (hsharp : pyStartsWith line "#" = true) :
    (pyContains line "letters" = false →
      parseLoop (line :: rest) readLength records = parseLoop rest readLength records) ∧
    (∀ (t : String) (n : Int), pyContains line "letters" = true →
      (pySplitOn line "letters=")[1]? = some t → pyInt t = some n →
      parseLoop (line :: rest) readLength records = parseLoop rest (some n) records) := by
  constructor
  · intro h2
    rcases rest with _ | ⟨l1, _ | ⟨l2, _ | ⟨sep, rest3⟩⟩⟩ <;>
      simp [parseLoop, hsharp, h2]
  · intro t n h2 h3 h4
    rcases rest with _ | ⟨l1, _ | ⟨l2, _ | ⟨sep, rest3⟩⟩⟩ <;>
      simp [parseLoop, hsharp, h2, h3, h4]

/-- Witness for the amended C8: a `'#'` line without `letters` is
skipped, and `# letters=7` overwrites an earlier `read_length` of 3. -/
theorem c8_amended_comment_lines_witness :
    (parseLoop ["# generated by lastal\n", ""] none [] = parseLoop [""] none []) ∧
    (parseLoop ["# letters=7\n"] (some 3) [] = parseLoop [] (some 7) []) :=
  ⟨(c8_amended_comment_lines _ _ _ _ (by decide)).1 (by decide),
   (c8_amended_comment_lines _ _ _ _ (by decide)).2 "7\n" 7
     (by decide) (by decide) (by decide)⟩

/-- C9 counterexample: a top-level line that starts with neither `'#'`
nor `'a'` and is not empty raises the `IOError` whose message is
`"Cannot read alignment file"` with a capital C — not the claim's
`"cannot read alignment file"`. -/
theorem c9_counterexample :
    dotplot_assembly ["q 1 2\n"] = .error (.ioError "Cannot read alignment file") ∧
    "Cannot read alignment file" ≠ "cannot read alignment file" := by
  decide

/-- C9 amended: for every line read by the top-level loop that begins
with neither `'#'` nor `'a'`: the empty end-of-file marker terminates
parsing successfully with the records collected so far, and any other
such line fails the build with the `IOError` carrying the message
`"Cannot read alignment file"`. -/
theorem c9_amended_other_lines (line : String) (rest : List String)
    (readLength : Option Int) (records : List (List String))
    (hsharp : pyStartsWith line "#" = false)
    (ha : pyStartsWith line "a" = false) :
    parseLoop (line :: rest) readLength records =
      if line = "" then .ok (readLength, records)
      else .error (.ioError "Cannot read alignment file") := by
  rcases rest with _ | ⟨l1, _ | ⟨l2, _ | ⟨sep, rest3⟩⟩⟩ <;>
    simp [parseLoop, hsharp, ha]

/-- Witness for the amended C9: one garbage line and one end-of-file
marker. -/
theorem c9_amended_other_lines_witness :
    (parseLoop ["q 1 2\n"] none [] =
      if ("q 1 2\n" : String) = "" then .ok (none, [])
      else .error (.ioError "Cannot read alignment file")) ∧
    (parseLoop [""] (some 7) [] =
      if ("" : String) = "" then .ok (some 7, [])
      else .error (.ioError "Cannot read alignment file")) :=
  ⟨c9_amended_other_lines _ _ _ _ (by decide) (by decide),
   c9_amended_other_lines _ _ _ _ (by decide) (by decide)⟩

/-- C7: for every input file with no `letters=` comment line, the
build can never succeed, and whenever the reader loop and the frame
construction themselves succeed the failure is precisely the
`NameError` (`UninitializedValueError`) from the unconditional
`read_length` access in the reverse-query pass — regardless of the
file's strand mix, since that access happens even when no row (or no
row at all) has a reverse-oriented query. -/
theorem c7_missing_letters_comment (lines : List String)
    (hno : ∀ l ∈ lines, pyContains l "letters=" = false) :
    (∀ out : List Seg × List Seg, dotplot_assembly lines ≠ .ok out) ∧
    (∀ (rl : Option Int) (records : List (List String)) (rows : List MafRow),
      parseLoop lines none [] = .ok (rl, records) →
      buildFrame records = .ok rows →
      dotplot_assembly lines = .error .nameError) := by
  have hmain : ∀ (rl : Option Int) (records : List (List String)),
      parseLoop lines none [] = .ok (rl, records) →
      dotplot_assembly lines =
        (match buildFrame records with
         | .error e => .error e
         | .ok _ => .error .nameError) := by
    intro rl records hp
    have hrl : rl = none :=
      parseLoop_readLength_of_no_letters lines none [] hno rl records hp
    subst hrl
    unfold dotplot_assembly
    rw [hp]
  constructor
  · intro out hok
    cases hp : parseLoop lines none [] with
    | error e =>
      unfold dotplot_assembly at hok
      rw [hp] at hok
      simp at hok
    | ok pr =>
      obtain ⟨rl, records⟩ := pr
      rw [hmain rl records hp] at hok
      cases hf : buildFrame records with
      | error e =>
        rw [hf] at hok
        simp at hok
      | ok rows =>
        rw [hf] at hok
        simp at hok
  · intro rl records rows hp hf
    rw [hmain rl records hp, hf]

/-- Witness for C7: a file with one reverse-query block and no
`letters=` comment fails with the `NameError`. -/
theorem c7_missing_letters_comment_witness :
    dotplot_assembly
        ["a\n", "s ref 30 4 + 2000 ACGT\n", "s q 50 4 - 1000 ACGT\n", "\n"]
      = .error .nameError :=
  (c7_missing_letters_comment _ (by decide)).2 none
    [["ref", "30", "4", "+", "q", "50", "4", "-"]]
    [⟨some "ref", 30, 4, some "+", some "q", 50, 4, some "-"⟩]
    (by decide) (by decide)

end WfCloneValidation
